import Mathlib

/-!
Verification of the latency-sampler scripts (chapter-02) against their
natural-language specification.

The sampler `ping.py` parses two positional arguments (`host`, `samples`),
runs `for i in range(0, int(args.samples))`, issues one probe per tick with
timeout equal to the pacing interval (hardcoded 1), skips falsy probe results
with a printed warning, appends successful latencies, sleeps `interval - value`
after each success, and finally writes the collected values as a single-column
CSV (`Latency_secs`, no index) to `ping-<host>.csv`.

Latencies are modelled as rationals; the probe mechanism (the external `ping3`
library) is modelled by the value it returns on each tick: a number, `False`
(an error result) or `None` (a timeout), following the Python truthiness test
`if not value` used by the source.
-/

namespace LatencyBook

/-- The value the external `ping` call returns on one tick: a numeric latency
(a Python float, modelled as a rational), the Python constant `False`, or the
Python constant `None`.  The source does not distinguish the two non-numeric
outcomes: both are falsy. -/
inductive PingReturn where
  | num (latency : ℚ)
  | falseVal
  | noneVal
deriving DecidableEq, Repr

/-- Python truthiness test `not value` from `ping.py` line 15: `False`, `None`
and the float `0.0` are all falsy. -/
def pyNot : PingReturn → Bool
  | .num v => decide (v = 0)
  | .falseVal => true
  | .noneVal => true

/-- The exact line printed by `ping.py` line 16 on a falsy probe result. -/
def warnMsg : String := "warning: ping timed out, latency outlier not measured"

/-- The observable in-memory state of one sampler run: the `values` list being
built, the lines printed so far, and the durations passed to `time.sleep`. -/
structure RunState where
  values : List ℚ
  printed : List String
  sleeps : List ℚ
deriving DecidableEq, Repr

/-- State at loop entry: `values = []`, nothing printed, no sleeps. -/
def initState : RunState := ⟨[], [], []⟩

/-- One iteration of the sampling loop (`ping.py` lines 14-19): probe, test
truthiness, either warn and continue or append the value and sleep
`interval - value`. -/
def tick (interval : ℚ) (st : RunState) (value : PingReturn) : RunState :=
  if pyNot value then
    { st with printed := st.printed ++ [warnMsg] }
  else
    match value with
    | .num v => { st with values := st.values ++ [v], sleeps := st.sleeps ++ [interval - v] }
    | _ => st

/-- The full sampling loop over a fixed schedule of probe results, one per
iteration of `range(0, int(args.samples))`. -/
def runLoop (interval : ℚ) (st : RunState) : List PingReturn → RunState
  | [] => st
  | p :: rest => runLoop interval (tick interval st p) rest

/-- A single-column CSV file as `df.to_csv(output, index=False)` produces it:
a header (the one column name) and one data row per value, no index column. -/
structure CsvFile where
  header : String
  rows : List ℚ
deriving DecidableEq, Repr

/-- The textual lines of a `CsvFile`, given a scalar formatter (the external
library's float formatting): the header line followed by one line per row. -/
def csvLines (render : ℚ → String) (f : CsvFile) : List String :=
  f.header :: f.rows.map render

/-- `ping.py` line 22: the output file name `"ping-%s.csv" % (args.host)`. -/
def pingOutputName (host : String) : String := "ping-" ++ host ++ ".csv"

/-- Decimal digit test for the model of Python `int()`. -/
def isDigitCh (c : Char) : Bool := decide ('0' ≤ c) && decide (c ≤ '9')

/-- Numeric value of a decimal digit character. -/
def digitVal (c : Char) : Nat := c.toNat - 48

/-- Digits of a Python integer literal after the first one: plain digits with
single underscores allowed between digits (as Python `int()` accepts). -/
def pyDigitsGo (acc : Nat) : List Char → Option Nat
  | [] => some acc
  | ['_'] => none
  | '_' :: c :: rest =>
      if isDigitCh c then pyDigitsGo (acc * 10 + digitVal c) rest else none
  | c :: rest =>
      if isDigitCh c then pyDigitsGo (acc * 10 + digitVal c) rest else none

/-- The digit part of a Python integer literal: at least one digit, then
`pyDigitsGo`. -/
def pyDigits : List Char → Option Nat
  | [] => none
  | c :: rest => if isDigitCh c then pyDigitsGo (digitVal c) rest else none

/-- ASCII whitespace stripped by Python `int()` (space, tab, newline, carriage
return, vertical tab, form feed). -/
def isPySpace (c : Char) : Bool :=
  c == ' ' || c == '\t' || c == '\n' || c == '\r' || c == Char.ofNat 11 || c == Char.ofNat 12

/-- Strip leading and trailing whitespace, as Python `int()` does. -/
def pyStrip (cs : List Char) : List Char :=
  ((cs.dropWhile isPySpace).reverse.dropWhile isPySpace).reverse

/-- Model of Python `int(s)` on a string (`ping.py` line 13): strip
whitespace, optional sign, a non-empty run of digits (underscore separators
allowed); `none` models the `ValueError` raised on malformed input. -/
def pyInt (s : String) : Option Int :=
  match pyStrip s.toList with
  | '+' :: rest => (pyDigits rest).map (fun n => (n : Int))
  | '-' :: rest => (pyDigits rest).map (fun n => -(n : Int))
  | cs => (pyDigits cs).map (fun n => (n : Int))

/-- The startup failure of `int(args.samples)` on a malformed argument
(Python `ValueError`, the spec's ParseError). -/
inductive ParseFail where
  | parseFail
deriving DecidableEq, Repr

/-- A file system restricted to the sampler's single-column CSV files: a map
from file name to content. -/
def Fs : Type := String → Option CsvFile

/-- `df.to_csv(output, index=False)`: store the file under its name,
overwriting whatever was there. -/
def writeCsv (fs : Fs) (name : String) (f : CsvFile) : Fs :=
  fun n => if n = name then some f else fs n

/-- The single-column DataFrame built at `ping.py` line 21 and written at
line 23: column name `Latency_secs`, one row per collected value, no index. -/
def sampleCsv (vs : List ℚ) : CsvFile := ⟨"Latency_secs", vs⟩

/-- Everything one sampler run produces besides the file system: how many
probes were issued, the final loop state, and the name and content of the
file written. -/
structure RunOutcome where
  probesIssued : Nat
  finalState : RunState
  fileName : String
  fileContent : CsvFile
deriving DecidableEq, Repr

/-- The whole of `ping.py` after argument parsing, over an environment `env`
giving the probe result of each tick: parse `samples` (a failure aborts
before any probe and leaves the file system untouched), run the loop over
`range(0, n)`, build the one-column DataFrame and write it.  Returns the file
system after the run and either the outcome or the startup parse failure. -/
def pingScript (host samples : String) (interval : ℚ) (env : Nat → PingReturn) (fs : Fs) :
    Fs × Except ParseFail RunOutcome :=
  match pyInt samples with
  | none => (fs, Except.error ParseFail.parseFail)
  | some n =>
      let probes := (List.range n.toNat).map env
      let st := runLoop interval initState probes
      let content := sampleCsv st.values
      let name := pingOutputName host
      (writeCsv fs name content, Except.ok ⟨probes.length, st, name, content⟩)

/-- Parse every data row of the file with the scalar parser; any malformed
row fails the whole read, as `pd.read_csv` would. -/
def parseRows (parse : String → Option ℚ) : List String → Option (List ℚ)
  | [] => some []
  | s :: rest =>
      match parse s, parseRows parse rest with
      | some v, some vs => some (v :: vs)
      | _, _ => none

/-- `pd.read_csv` on the textual lines of a single-column file: the first
line is the column name, the remaining lines are the data rows. -/
def readCsvLines (parse : String → Option ℚ) : List String → Option (String × List ℚ)
  | [] => none
  | h :: rest => (parseRows parse rest).map (fun vs => (h, vs))

/-- `df["Latency_secs"]` as the plotting scripts evaluate it: the column is
present exactly when the parsed header is the literal `Latency_secs`. -/
def latencyColumn (df : String × List ℚ) : Option (List ℚ) :=
  if df.1 = "Latency_secs" then some df.2 else none

/-- What each plotting script reads: the file at `name`, its `Latency_secs`
column. -/
def readLatencies (fs : Fs) (name : String) : Option (List ℚ) :=
  (fs name).bind (fun f => if f.header = "Latency_secs" then some f.rows else none)

/-- Seconds-to-milliseconds conversion (`df["Latency_secs"] * 1000` in
`plot-ecdf.py` and `plot-hist.py`, `latency * MSECS_PER_SEC` in
`plot-hdrhist.py`). -/
def toMillis (vs : List ℚ) : List ℚ := vs.map (fun v => v * 1000)

/-- The common shape of the three plotting scripts: read the hardcoded input
file `ping-google.com.csv`, take the `Latency_secs` column, convert to
milliseconds, hand the values to the statistics-and-rendering pipeline
(external libraries, modelled by the `render` parameter) and save the image
under the script's fixed output name. -/
def plotScript {Img : Type} (render : List ℚ → Img) (outName : String) (fs : Fs) :
    Option (String × Img) :=
  (readLatencies fs "ping-google.com.csv").map (fun vs => (outName, render (toMillis vs)))

/-- `plot-ecdf.py`: writes `ecdf.png`. -/
def ecdfScript {Img : Type} (render : List ℚ → Img) (fs : Fs) : Option (String × Img) :=
  plotScript render "ecdf.png" fs

/-- `plot-hdrhist.py`: writes `histogram-hdr.png`. -/
def hdrScript {Img : Type} (render : List ℚ → Img) (fs : Fs) : Option (String × Img) :=
  plotScript render "histogram-hdr.png" fs

/-- `plot-hist.py`: writes `histogram.png`. -/
def histScript {Img : Type} (render : List ℚ → Img) (fs : Fs) : Option (String × Img) :=
  plotScript render "histogram.png" fs

/-- The spec's contract for a successful probe: its measured latency is
strictly positive (`0 < e ≤ T`); non-numeric results are unconstrained. -/
def posLatency : PingReturn → Bool
  | .num e => decide (0 < e)
  | _ => true

/-- The data model's weaker bound: a measured latency is non-negative. -/
def nonNegLatency : PingReturn → Bool
  | .num e => decide (0 ≤ e)
  | _ => true

/-- A concrete probe environment: all probes fail with `None`. -/
def envNone : Nat → PingReturn := fun _ => PingReturn.noneVal

/-- A concrete probe environment: all probes fail with `False`. -/
def envFalse : Nat → PingReturn := fun _ => PingReturn.falseVal

/-- The probe environment of the spec's worked scenario: three successes with
latencies 0.02, 0.05, 0.03 seconds. -/
def envExample : Nat → PingReturn := fun i =>
  PingReturn.num (if i = 0 then 0.02 else if i = 1 then 0.05 else 0.03)

/-- An empty file system. -/
def fsEmpty : Fs := fun _ => none

/-- A file system that already holds a stale file under the scenario's output
name, to exhibit overwriting. -/
def fsPrev : Fs := fun n =>
  if n = "ping-example.test.csv" then some ⟨"Old_header", [9]⟩ else none

/-- A file system holding a `ping-google.com.csv` input for the plotting
scripts. -/
def fsGoogle : Fs := fun n =>
  if n = "ping-google.com.csv" then some (sampleCsv [0.02, 0.05]) else none

/-- A second file system agreeing with `fsGoogle` on the plotting input file
but differing elsewhere. -/
def fsGoogle2 : Fs := fun n =>
  if n = "ping-google.com.csv" then some (sampleCsv [0.02, 0.05])
  else some (sampleCsv [])

/-- A fixed-point decimal formatter for the scenario's three latencies,
standing in for the external library's float formatting. -/
def renderFix : ℚ → String := fun v =>
  if v = 0.02 then "0.02" else if v = 0.05 then "0.05"
  else if v = 0.03 then "0.03" else ""

/-- The parser inverting `renderFix` on the scenario's latencies, standing in
for the external library's float parsing. -/
def parseFix : String → Option ℚ := fun s =>
  if s = "0.02" then some 0.02 else if s = "0.05" then some 0.05
  else if s = "0.03" then some 0.03 else none

/-- Each loop iteration adds one value exactly when the probe result is
truthy: the length of `values` counts the truthy probes. -/
lemma runLoop_values_length (T : ℚ) (st : RunState) (probes : List PingReturn) :
    (runLoop T st probes).values.length =
      st.values.length + probes.countP (fun p => !pyNot p) := by
  induction probes generalizing st with
  | nil => simp [runLoop]
  | cons p rest ih =>
    rw [runLoop, ih, List.countP_cons]
    cases p with
    | num v =>
      by_cases h : v = 0
      · simp [tick, pyNot, h]
      · simp [tick, pyNot, h]
        ring
    | falseVal => simp [tick, pyNot]
    | noneVal => simp [tick, pyNot]

/-- Every value the loop collects was either there at entry or is the nonzero
latency of one of the probes. -/
lemma runLoop_values_mem (T : ℚ) (st : RunState) (probes : List PingReturn) (v : ℚ)
    (hv : v ∈ (runLoop T st probes).values) :
    v ∈ st.values ∨ (PingReturn.num v ∈ probes ∧ v ≠ 0) := by
  induction probes generalizing st with
  | nil => exact Or.inl hv
  | cons p rest ih =>
    rw [runLoop] at hv
    rcases ih _ hv with h | h
    · cases p with
      | num w =>
        by_cases hw : w = 0
        · simp [tick, pyNot, hw] at h
          exact Or.inl h
        · simp [tick, pyNot, hw] at h
          rcases h with h | h
          · exact Or.inl h
          · exact Or.inr ⟨by simp [h, hw], by simpa [h] using hw⟩
      | falseVal =>
        simp [tick, pyNot] at h
        exact Or.inl h
      | noneVal =>
        simp [tick, pyNot] at h
        exact Or.inl h
    · exact Or.inr ⟨List.mem_cons_of_mem _ h.1, h.2⟩

/-- `parseRows` inverts the row formatter when the scalar parser inverts it
on every value present. -/
lemma parseRows_map_render (parse : String → Option ℚ) (render : ℚ → String)
    (vs : List ℚ) (h : ∀ v ∈ vs, parse (render v) = some v) :
    parseRows parse (vs.map render) = some vs := by
  induction vs with
  | nil => rfl
  | cons v rest ih =>
    have hv := h v (List.mem_cons_self v rest)
    have hrest := ih (fun w hw => h w (List.mem_cons_of_mem v hw))
    simp [parseRows, hv, hrest]

/-- C1: a successful probe with measured latency `e`, `0 < e ≤ T`, appends
`e` and suspends the sampler for exactly `T - e`; that duration is
non-negative, and at the boundary `e = T` it is exactly zero, so a
negative-duration sleep never occurs for a successful probe. -/
theorem success_pacing (T e : ℚ) (st : RunState) (h0 : 0 < e) (hT : e ≤ T) :
    tick T st (PingReturn.num e) =
      { st with values := st.values ++ [e], sleeps := st.sleeps ++ [T - e] } ∧
    0 ≤ T - e ∧ (e = T → T - e = 0) := by
  refine ⟨?_, by linarith, fun h => by rw [h]; ring⟩
  have hne : pyNot (PingReturn.num e) = false := by
    simp [pyNot, h0.ne']
  simp [tick, hne]

theorem success_pacing_w :
    tick 1 initState (PingReturn.num (1/2)) =
      { initState with values := initState.values ++ [1/2],
                       sleeps := initState.sleeps ++ [1 - 1/2] } ∧
    (0 : ℚ) ≤ 1 - 1/2 ∧ ((1 : ℚ)/2 = 1 → (1 : ℚ) - 1/2 = 0) :=
  success_pacing 1 (1/2) initState (by norm_num) (by norm_num)

/-- C2: over any schedule of probe results whose successful latencies respect
the probe contract (strictly positive), the collected sequence is no longer
than the number of probes, with equality exactly when no probe fails (no
`False` and no `None` result). -/
theorem values_length_bound (T : ℚ) (probes : List PingReturn)
    (hpos : probes.all posLatency = true) :
    (runLoop T initState probes).values.length ≤ probes.length ∧
    ((runLoop T initState probes).values.length = probes.length ↔
      ∀ p ∈ probes, p ≠ PingReturn.falseVal ∧ p ≠ PingReturn.noneVal) := by
  have hlen := runLoop_values_length T initState probes
  rw [List.all_eq_true] at hpos
  constructor
  · rw [hlen]
    simpa [initState] using List.countP_le_length _
  · rw [hlen]
    simp only [initState, List.length_nil, Nat.zero_add]
    rw [List.countP_eq_length]
    constructor
    · intro hall p hp
      have := hall p hp
      cases p with
      | num v => exact ⟨by simp, by simp⟩
      | falseVal => simp [pyNot] at this
      | noneVal => simp [pyNot] at this
    · intro hall p hp
      cases p with
      | num v =>
        have := hpos _ hp
        simp [posLatency] at this
        simp [pyNot, this.ne']
      | falseVal => exact absurd rfl (hall _ hp).1
      | noneVal => exact absurd rfl (hall _ hp).2

theorem values_length_bound_w :
    (runLoop 1 initState [PingReturn.num 0.02, PingReturn.falseVal]).values.length ≤
      [PingReturn.num 0.02, PingReturn.falseVal].length ∧
    ((runLoop 1 initState [PingReturn.num 0.02, PingReturn.falseVal]).values.length =
        [PingReturn.num 0.02, PingReturn.falseVal].length ↔
      ∀ p ∈ [PingReturn.num 0.02, PingReturn.falseVal],
        p ≠ PingReturn.falseVal ∧ p ≠ PingReturn.noneVal) :=
  values_length_bound 1 [PingReturn.num 0.02, PingReturn.falseVal]
    (by norm_num [posLatency])

/-- C4: a falsy probe result (timeout `None`, error `False` — the two are not
distinguished — or a zero reading) prints exactly the warning line, records
no value, causes no pacing sleep for that tick, is not retried, and the loop
simply continues with the remaining iterations. -/
theorem timeout_skips (T : ℚ) (st : RunState) (p : PingReturn) (rest : List PingReturn)
    (h : pyNot p = true) :
    tick T st p = { st with printed := st.printed ++ [warnMsg] } ∧
    warnMsg = "warning: " ++ "ping timed out, latency outlier not measured" ∧
    (tick T st p).values = st.values ∧
    (tick T st p).sleeps = st.sleeps ∧
    runLoop T st (p :: rest) =
      runLoop T { st with printed := st.printed ++ [warnMsg] } rest ∧
    tick T st PingReturn.falseVal = tick T st PingReturn.noneVal := by
  have ht : tick T st p = { st with printed := st.printed ++ [warnMsg] } := by
    simp [tick, h]
  exact ⟨ht, rfl, by rw [ht], by rw [ht], by rw [runLoop, ht], rfl⟩

theorem timeout_skips_w :
    tick 1 initState PingReturn.noneVal =
      { initState with printed := initState.printed ++ [warnMsg] } ∧
    warnMsg = "warning: " ++ "ping timed out, latency outlier not measured" ∧
    (tick 1 initState PingReturn.noneVal).values = initState.values ∧
    (tick 1 initState PingReturn.noneVal).sleeps = initState.sleeps ∧
    runLoop 1 initState (PingReturn.noneVal :: [PingReturn.num 1]) =
      runLoop 1 { initState with printed := initState.printed ++ [warnMsg] }
        [PingReturn.num 1] ∧
    tick 1 initState PingReturn.falseVal = tick 1 initState PingReturn.noneVal :=
  timeout_skips 1 initState PingReturn.noneVal [PingReturn.num 1] rfl

/-- C3: whenever the `samples` argument parses, the run stores under
`ping-<host>.csv` — regardless of what the file system previously held
there — exactly the single-column file with header `Latency_secs` and the
collected latencies as its data rows, in issuance order and with no index
column. -/
theorem csv_persisted (host samples : String) (T : ℚ) (env : Nat → PingReturn)
    (fs : Fs) (render : ℚ → String) (n : Int) (h : pyInt samples = some n) :
    (pingScript host samples T env fs).1 (pingOutputName host) =
      some (sampleCsv (runLoop T initState ((List.range n.toNat).map env)).values) ∧
    (pingScript host samples T env fs).2 =
      Except.ok ⟨n.toNat, runLoop T initState ((List.range n.toNat).map env),
        pingOutputName host,
        sampleCsv (runLoop T initState ((List.range n.toNat).map env)).values⟩ ∧
    csvLines render
        (sampleCsv (runLoop T initState ((List.range n.toNat).map env)).values) =
      "Latency_secs" ::
        (runLoop T initState ((List.range n.toNat).map env)).values.map render := by
  refine ⟨?_, ?_, rfl⟩
  · simp [pingScript, h, writeCsv]
  · simp [pingScript, h]

theorem csv_persisted_w :
    (pingScript "example.test" "3" 1 envExample fsPrev).1 "ping-example.test.csv" =
      some (sampleCsv [0.02, 0.05, 0.03]) ∧
    fsPrev "ping-example.test.csv" = some ⟨"Old_header", [9]⟩ := by
  have h :=
    (csv_persisted "example.test" "3" 1 envExample fsPrev renderFix 3 (by decide)).1
  refine ⟨?_, by simp [fsPrev]⟩
  rw [show "ping-example.test.csv" = pingOutputName "example.test" from rfl, h]
  norm_num [List.range_succ, runLoop, tick, pyNot, envExample, initState, sampleCsv]

/-- C5: writing a sample sequence in the output file format and reading it
back the way the plotting collaborators do — parse the lines, take the
`Latency_secs` column — recovers the same sequence in the same order,
whenever the scalar formatter and parser round-trip on the values present
(as the external libraries' float formatting does). -/
theorem csv_round_trip (render : ℚ → String) (parse : String → Option ℚ)
    (vs : List ℚ) (hinv : ∀ v ∈ vs, parse (render v) = some v) :
    (readCsvLines parse (csvLines render (sampleCsv vs))).bind latencyColumn =
      some vs := by
  have h := parseRows_map_render parse render vs hinv
  simp [csvLines, sampleCsv, readCsvLines, h, latencyColumn]

theorem csv_round_trip_w :
    (readCsvLines parseFix
        (csvLines renderFix (sampleCsv [0.02, 0.05, 0.03]))).bind latencyColumn =
      some [0.02, 0.05, 0.03] :=
  csv_round_trip renderFix parseFix [0.02, 0.05, 0.03]
    (by intro v hv; fin_cases hv <;> norm_num [renderFix, parseFix] <;> simp)

/-- C6: with `samples = "0"` no probe is issued (the result does not depend
on the probe environment at all), the collected sequence is empty, and the
persisted file is header-only. -/
theorem zero_samples (host : String) (T : ℚ) (env env2 : Nat → PingReturn)
    (fs : Fs) (render : ℚ → String) :
    (pingScript host "0" T env fs).2 =
      Except.ok ⟨0, initState, pingOutputName host, sampleCsv []⟩ ∧
    (pingScript host "0" T env fs).1 (pingOutputName host) = some (sampleCsv []) ∧
    csvLines render (sampleCsv []) = ["Latency_secs"] ∧
    pingScript host "0" T env fs = pingScript host "0" T env2 fs := by
  have h0 : pyInt "0" = some 0 := by decide
  refine ⟨?_, ?_, rfl, ?_⟩
  · simp [pingScript, h0, runLoop, initState]
  · simp [pingScript, h0, runLoop, writeCsv, initState]
  · simp [pingScript, h0]

/-- C7: a `samples` argument that does not parse as an integer makes the run
fail with the parse error before any probe is issued (the result is the same
for every probe environment) and before any output file is written (the file
system is returned unchanged). -/
theorem parse_failure_aborts (host samples : String) (T : ℚ)
    (env env2 : Nat → PingReturn) (fs : Fs) (h : pyInt samples = none) :
    pingScript host samples T env fs = (fs, Except.error ParseFail.parseFail) ∧
    pingScript host samples T env fs = pingScript host samples T env2 fs := by
  have h1 : ∀ e : Nat → PingReturn,
      pingScript host samples T e fs = (fs, Except.error ParseFail.parseFail) := by
    intro e
    simp [pingScript, h]
  exact ⟨h1 env, (h1 env).trans (h1 env2).symm⟩

theorem parse_failure_aborts_w :
    pingScript "example.test" "abc" 1 envNone fsEmpty =
      (fsEmpty, Except.error ParseFail.parseFail) ∧
    pingScript "example.test" "abc" 1 envNone fsEmpty =
      pingScript "example.test" "abc" 1 envFalse fsEmpty :=
  parse_failure_aborts "example.test" "abc" 1 envNone envFalse fsEmpty (by decide)

/-- C8: each plotting script's output is a deterministic function of the
input file: two runs over file systems agreeing on `ping-google.com.csv`
produce identical images under identical names, for any (fixed) external
statistics-and-rendering pipeline. -/
theorem plots_deterministic {Img : Type} (re rh rg : List ℚ → Img) (fs fs2 : Fs)
    (h : fs "ping-google.com.csv" = fs2 "ping-google.com.csv") :
    ecdfScript re fs = ecdfScript re fs2 ∧
    hdrScript rh fs = hdrScript rh fs2 ∧
    histScript rg fs = histScript rg fs2 := by
  unfold ecdfScript hdrScript histScript plotScript readLatencies
  rw [h]
  exact ⟨rfl, rfl, rfl⟩

theorem plots_deterministic_w :
    ecdfScript id fsGoogle = ecdfScript id fsGoogle2 ∧
    hdrScript id fsGoogle = hdrScript id fsGoogle2 ∧
    histScript id fsGoogle = histScript id fsGoogle2 :=
  plots_deterministic id id id fsGoogle fsGoogle2 (by simp [fsGoogle, fsGoogle2])

/-- C9: the loop classifies any falsy probe result as a timeout — a probe
completing with latency exactly 0 is discarded with the timeout warning, not
appended — so, given the data model's bound that measured latencies are
non-negative, every collected value and every row of the written file is
strictly positive. -/
theorem zero_latency_discarded (T : ℚ) (st : RunState) (probes : List PingReturn)
    (hpos : probes.all nonNegLatency = true) :
    pyNot (PingReturn.num 0) = true ∧
    tick T st (PingReturn.num 0) = { st with printed := st.printed ++ [warnMsg] } ∧
    (∀ v ∈ (runLoop T initState probes).values, 0 < v) ∧
    (∀ v ∈ (sampleCsv (runLoop T initState probes).values).rows, 0 < v) := by
  rw [List.all_eq_true] at hpos
  have hmem : ∀ v ∈ (runLoop T initState probes).values, 0 < v := by
    intro v hv
    rcases runLoop_values_mem T initState probes v hv with h | h
    · simp [initState] at h
    · have hle := hpos _ h.1
      simp [nonNegLatency] at hle
      exact lt_of_le_of_ne hle (Ne.symm h.2)
  exact ⟨by simp [pyNot], by simp [tick, pyNot], hmem, hmem⟩

theorem zero_latency_discarded_w :
    pyNot (PingReturn.num 0) = true ∧
    tick 1 initState (PingReturn.num 0) =
      { initState with printed := initState.printed ++ [warnMsg] } ∧
    (∀ v ∈ (runLoop 1 initState
        [PingReturn.num 0, PingReturn.num 0.05, PingReturn.falseVal]).values, 0 < v) ∧
    (∀ v ∈ (sampleCsv (runLoop 1 initState
        [PingReturn.num 0, PingReturn.num 0.05, PingReturn.falseVal]).values).rows,
      0 < v) :=
  zero_latency_discarded 1 initState
    [PingReturn.num 0, PingReturn.num 0.05, PingReturn.falseVal]
    (by norm_num [nonNegLatency])

/-- C10: a `samples` argument parsing to a negative integer is accepted and
behaves exactly like `samples = "0"`: no probe issued, empty sequence,
header-only file. -/
theorem negative_samples (host samples : String) (T : ℚ) (env : Nat → PingReturn)
    (fs : Fs) (n : Int) (h : pyInt samples = some n) (hn : n < 0) :
    pingScript host samples T env fs = pingScript host "0" T env fs ∧
    (pingScript host samples T env fs).2 =
      Except.ok ⟨0, initState, pingOutputName host, sampleCsv []⟩ := by
  have h0 : pyInt "0" = some 0 := by decide
  have hns : n.toNat = 0 := Int.toNat_eq_zero.mpr hn.le
  constructor
  · simp [pingScript, h, h0, hns, runLoop]
  · simp [pingScript, h, hns, runLoop, initState]

theorem negative_samples_w :
    pingScript "example.test" "-5" 1 envNone fsEmpty =
      pingScript "example.test" "0" 1 envNone fsEmpty ∧
    (pingScript "example.test" "-5" 1 envNone fsEmpty).2 =
      Except.ok ⟨0, initState, pingOutputName "example.test", sampleCsv []⟩ :=
  negative_samples "example.test" "-5" 1 envNone fsEmpty (-5) (by decide) (by decide)

end LatencyBook
